import Mathlib

/-!
Shallow embedding of the sampling/alerting core of
src/battery_monitor_pro_windows.py (class BatteryMonitorPro).

The embedded code is:
- the battery branch and the no-battery branch of update_interface
  (lines 445-531): rate computation, deque history append, the two
  edge-triggered alert latches (deja_alerte_critique / deja_alerte_plein)
  and the side-effect actions guarded by the critical-alert branch;
- the settings save handler save_and_close inside open_settings
  (lines 648-667);
- the initial state from __init__ (lines 185-188, 258-259) and
  DEFAULT_CONFIG (lines 52-66).

Modelling conventions:
- Python floats (time.time, the rate division) are modelled as exact
  rationals; the integer percent field holds the result of
  int(round(batterie.percent)) computed by line 456, so readings carry an
  Int percent which (as in the source) is not restricted to [0,100];
- psutil.sensors_battery() returning None is an Option; the engine
  receives the current wall-clock time time.time() as an explicit input;
- the module-level constant IS_WINDOWS is an explicit Bool parameter w;
- Python truthiness tests are translated literally: the non-empty-string
  test on custom_command (line 487) and the nonzero test on the float
  self.last_update (line 462).
-/

/-- One psutil battery snapshot, as consumed by update_interface lines
456-458: percent already rounded to Int, power_plugged, secsleft. -/
structure Snapshot where
  percent : Int
  power_plugged : Bool
  secsleft : Option Int

/-- The configuration fields held on self (source lines 171-183). -/
structure Config where
  seuil_critique : Int
  seuil_plein : Int
  interval_ms : Int
  history_size : Nat
  start_minimized : Bool
  enable_notifications : Bool
  play_sound : Bool
  auto_hibernate : Bool
  hibernate_threshold : Int
  enable_power_saver_auto : Bool
  power_saver_threshold : Int
  custom_command : String
  autorun : Bool

/-- DEFAULT_CONFIG, source lines 52-66. -/
def defaultConfig : Config :=
  { seuil_critique := 15, seuil_plein := 95, interval_ms := 5000, history_size := 60,
    start_minimized := false, enable_notifications := true, play_sound := true,
    auto_hibernate := false, hibernate_threshold := 5, enable_power_saver_auto := false,
    power_saver_threshold := 20, custom_command := "", autorun := false }

/-- The mutable per-sample state on self: the two alert latches
(lines 185-186), the deque history (line 188) and the rate trackers
(lines 258-259, updated at 522-523). -/
structure EngineState where
  config : Config
  deja_alerte_critique : Bool
  deja_alerte_plein : Bool
  history : List Int
  last_percent : Option Int
  last_update : Option ℚ

/-- Observable effects of one update_interface tick: the two alert
branches being entered, the no-battery branch, the three side-effect
actions inside the critical branch, and the displayed rate. -/
structure Output where
  criticalAlert : Bool
  fullAlert : Bool
  noBattery : Bool
  ranCustomCommand : Bool
  ranPowerSaver : Bool
  hibernatePrompted : Bool
  ratePerHour : ℚ

/-- Engine state right after __init__: both latches False (lines 185-186),
empty deque (line 188), last_percent and last_update None (lines 258-259). -/
def initState (cfg : Config) : EngineState :=
  { config := cfg, deja_alerte_critique := false, deja_alerte_plein := false,
    history := [], last_percent := none, last_update := none }

/-- The last n elements of a list, in order. Used to state the ring-buffer
property and to reason about deque appends. -/
def takeLast (n : Nat) (xs : List Int) : List Int :=
  xs.drop (xs.length - n)

/-- collections.deque(maxlen).append (line 470 on the deque of line 188):
appends on the right, evicting the leftmost element when the deque is
full; a deque with maxlen 0 stays empty. -/
def dequeAppend (maxlen : Nat) (xs : List Int) (x : Int) : List Int :=
  if maxlen = 0 then []
  else if xs.length < maxlen then xs ++ [x]
  else xs.drop 1 ++ [x]

/-- Rate computation, source lines 462-469.  The Python guard is
`if self.last_percent is not None and self.last_update:` so the stored
float last_update is tested for truthiness (nonzero), not for presence. -/
def compute_rate (lastP : Option Int) (lastU : Option ℚ) (pct : Int) (now : ℚ) : ℚ :=
  match lastP, lastU with
  | some lp, some lu =>
      if lu ≠ 0 then
        (if 0 < (now - lu) / 3600 then ((pct : ℚ) - (lp : ℚ)) / ((now - lu) / 3600) else 0)
      else 0
  | _, _ => 0

/-- Critical condition, line 480: pct <= self.seuil_critique and not charging. -/
def critCond (cfg : Config) (b : Snapshot) : Bool :=
  decide (b.percent ≤ cfg.seuil_critique) && !b.power_plugged

/-- Full-charge condition, line 510: charging and pct >= self.seuil_plein. -/
def pleinCond (cfg : Config) (b : Snapshot) : Bool :=
  b.power_plugged && decide (cfg.seuil_plein ≤ b.percent)

/-- One tick of update_interface (lines 448-523).  w is the module
constant IS_WINDOWS; batterie is psutil.sensors_battery(); now is
time.time().  The none branch (450-454) clears the history only; the some
branch computes the rate, appends to the history, runs the two latched
alert blocks (480-519: the latch becomes exactly the current condition
value, the branch body runs only when the condition holds and the latch
was clear) and updates the trackers (522-523). -/
def step (w : Bool) (s : EngineState) (batterie : Option Snapshot) (now : ℚ) :
    EngineState × Output :=
  match batterie with
  | none =>
      ({ s with history := [] },
       { criticalAlert := false, fullAlert := false, noBattery := true,
         ranCustomCommand := false, ranPowerSaver := false,
         hibernatePrompted := false, ratePerHour := 0 })
  | some b =>
      let pct := b.percent
      let rate := compute_rate s.last_percent s.last_update pct now
      let critFires := critCond s.config b && !s.deja_alerte_critique
      let pleinFires := pleinCond s.config b && !s.deja_alerte_plein
      ({ s with
           history := dequeAppend s.config.history_size s.history pct,
           deja_alerte_critique := critCond s.config b,
           deja_alerte_plein := pleinCond s.config b,
           last_percent := some pct,
           last_update := some now },
       { criticalAlert := critFires,
         fullAlert := pleinFires,
         noBattery := false,
         ranCustomCommand := critFires && decide (s.config.custom_command ≠ ""),
         ranPowerSaver := critFires && s.config.enable_power_saver_auto && w,
         hibernatePrompted :=
           critFires && s.config.auto_hibernate && w
             && decide (pct ≤ s.config.hibernate_threshold),
         ratePerHour := rate })

/-- Runs a sequence of ticks, collecting the per-tick outputs in order. -/
def run (w : Bool) (s : EngineState) : List (Option Snapshot × ℚ) → EngineState × List Output
  | [] => (s, [])
  | p :: ps =>
      let st := step w s p.1 p.2
      let rest := run w st.1 ps
      (rest.1, st.2 :: rest.2)

/-- The raw values entered in the settings dialog, as read back by
save_and_close (lines 650-662). -/
structure SettingsInput where
  crit : Int
  plein : Int
  interval : Int
  auto_hibernate : Bool
  hibernate : Int
  power_saver_auto : Bool
  power_saver_thresh : Int
  enable_notifs : Bool
  sound : Bool
  start_minimized : Bool
  custom_command : String
  autorun : Bool

/-- save_and_close (lines 648-667): clamps and stores each field on self;
no other attribute of self is touched. -/
def save_and_close (i : SettingsInput) (s : EngineState) : EngineState :=
  { s with config :=
      { s.config with
          seuil_critique := max 1 (min 99 i.crit),
          seuil_plein := max 50 (min 100 i.plein),
          interval_ms := max 1000 i.interval,
          auto_hibernate := i.auto_hibernate,
          hibernate_threshold := max 1 (min 20 i.hibernate),
          enable_power_saver_auto := i.power_saver_auto,
          power_saver_threshold := max 5 (min 50 i.power_saver_thresh),
          enable_notifications := i.enable_notifs,
          play_sound := i.sound,
          start_minimized := i.start_minimized,
          custom_command := i.custom_command,
          autorun := i.autorun } }

/-- Spec-side definition (from the spec's words, for the refinement
claims about edge-triggered alerts): given the latch value before the
first sample, the list of samples on which an edge-triggered alert
fires for the given list of condition values. -/
def specEdgeFlags (prev : Bool) : List Bool → List Bool
  | [] => []
  | c :: cs => (c && !prev) :: specEdgeFlags c cs

/-- Builds the input list for a run in which every sample has a battery
present. -/
def presentSamples (samples : List (Snapshot × ℚ)) : List (Option Snapshot × ℚ) :=
  samples.map fun p => (some p.1, p.2)

/-! ### Small unfolding lemmas for one tick -/

@[simp] theorem step_none_fst (w : Bool) (s : EngineState) (now : ℚ) :
    (step w s none now).1 = { s with history := [] } := rfl

@[simp] theorem step_none_snd (w : Bool) (s : EngineState) (now : ℚ) :
    (step w s none now).2 =
      { criticalAlert := false, fullAlert := false, noBattery := true,
        ranCustomCommand := false, ranPowerSaver := false,
        hibernatePrompted := false, ratePerHour := 0 } := rfl

@[simp] theorem step_some_config (w : Bool) (s : EngineState) (b : Snapshot) (now : ℚ) :
    (step w s (some b) now).1.config = s.config := rfl

@[simp] theorem step_some_critLatch (w : Bool) (s : EngineState) (b : Snapshot) (now : ℚ) :
    (step w s (some b) now).1.deja_alerte_critique = critCond s.config b := rfl

@[simp] theorem step_some_pleinLatch (w : Bool) (s : EngineState) (b : Snapshot) (now : ℚ) :
    (step w s (some b) now).1.deja_alerte_plein = pleinCond s.config b := rfl

@[simp] theorem step_some_history (w : Bool) (s : EngineState) (b : Snapshot) (now : ℚ) :
    (step w s (some b) now).1.history
      = dequeAppend s.config.history_size s.history b.percent := rfl

@[simp] theorem step_some_lastPercent (w : Bool) (s : EngineState) (b : Snapshot) (now : ℚ) :
    (step w s (some b) now).1.last_percent = some b.percent := rfl

@[simp] theorem step_some_lastUpdate (w : Bool) (s : EngineState) (b : Snapshot) (now : ℚ) :
    (step w s (some b) now).1.last_update = some now := rfl

@[simp] theorem step_some_critAlert (w : Bool) (s : EngineState) (b : Snapshot) (now : ℚ) :
    (step w s (some b) now).2.criticalAlert
      = (critCond s.config b && !s.deja_alerte_critique) := rfl

@[simp] theorem step_some_fullAlert (w : Bool) (s : EngineState) (b : Snapshot) (now : ℚ) :
    (step w s (some b) now).2.fullAlert
      = (pleinCond s.config b && !s.deja_alerte_plein) := rfl

@[simp] theorem step_some_rate (w : Bool) (s : EngineState) (b : Snapshot) (now : ℚ) :
    (step w s (some b) now).2.ratePerHour
      = compute_rate s.last_percent s.last_update b.percent now := rfl

@[simp] theorem step_some_cmd (w : Bool) (s : EngineState) (b : Snapshot) (now : ℚ) :
    (step w s (some b) now).2.ranCustomCommand
      = ((critCond s.config b && !s.deja_alerte_critique)
          && decide (s.config.custom_command ≠ "")) := rfl

@[simp] theorem step_some_powerSaver (w : Bool) (s : EngineState) (b : Snapshot) (now : ℚ) :
    (step w s (some b) now).2.ranPowerSaver
      = ((critCond s.config b && !s.deja_alerte_critique)
          && s.config.enable_power_saver_auto && w) := rfl

@[simp] theorem step_some_hibernate (w : Bool) (s : EngineState) (b : Snapshot) (now : ℚ) :
    (step w s (some b) now).2.hibernatePrompted
      = ((critCond s.config b && !s.deja_alerte_critique)
          && s.config.auto_hibernate && w
          && decide (b.percent ≤ s.config.hibernate_threshold)) := rfl

@[simp] theorem run_nil (w : Bool) (s : EngineState) : run w s [] = (s, []) := rfl

theorem run_cons (w : Bool) (s : EngineState) (p : Option Snapshot × ℚ)
    (ps : List (Option Snapshot × ℚ)) :
    run w s (p :: ps)
      = ((run w (step w s p.1 p.2).1 ps).1,
         (step w s p.1 p.2).2 :: (run w (step w s p.1 p.2).1 ps).2) := rfl

/-! ### Claims C9 and C10 -/

/-- C9: on any single sample, at most one of CriticalAlert and
FullChargeAlert is emitted: the critical condition requires charging to be
false while the full-charge condition requires it to be true, so the two
alert branches can never both fire on the same reading. -/
theorem c9_alerts_mutually_exclusive (w : Bool) (s : EngineState)
    (batterie : Option Snapshot) (now : ℚ) :
    ((step w s batterie now).2.criticalAlert && (step w s batterie now).2.fullAlert) = false := by
  cases batterie with
  | none => simp
  | some b => cases hc : b.power_plugged <;> simp [critCond, pleinCond, hc]

/-- C10: the side-effect actions of the critical branch (custom command,
automatic power saver, auto-hibernate prompt) can occur only on a tick
where the critical alert itself fires, and never on a tick where the
critical latch is already set. -/
theorem c10_actions_only_on_alert (w : Bool) (s : EngineState)
    (batterie : Option Snapshot) (now : ℚ) :
    ((((step w s batterie now).2.ranCustomCommand
        || (step w s batterie now).2.ranPowerSaver
        || (step w s batterie now).2.hibernatePrompted)
      && !(step w s batterie now).2.criticalAlert) = false)
    ∧ ((((step w s batterie now).2.ranCustomCommand
        || (step w s batterie now).2.ranPowerSaver
        || (step w s batterie now).2.hibernatePrompted)
      && s.deja_alerte_critique) = false) := by
  cases batterie with
  | none => simp
  | some b =>
      constructor
      · simp only [step_some_cmd, step_some_powerSaver, step_some_hibernate,
          step_some_critAlert]
        cases (critCond s.config b && !s.deja_alerte_critique) <;> simp
      · simp only [step_some_cmd, step_some_powerSaver, step_some_hibernate]
        cases hd : s.deja_alerte_critique <;> simp [hd]

/-! ### Edge-triggered alerts over runs (claims C1 and C2) -/

theorem run_crit_alerts (w : Bool) (cfg : Config) (samples : List (Snapshot × ℚ)) :
    ∀ s : EngineState, s.config = cfg →
    ((run w s (presentSamples samples)).2.map fun o => o.criticalAlert)
      = specEdgeFlags s.deja_alerte_critique (samples.map fun p => critCond cfg p.1) := by
  induction samples with
  | nil => intro s _; simp [presentSamples, specEdgeFlags]
  | cons p ps ih =>
      intro s h
      have hcfg : (step w s (some p.1) p.2).1.config = cfg := by rw [step_some_config, h]
      have ihs := ih (step w s (some p.1) p.2).1 hcfg
      simp only [presentSamples, List.map_cons] at ihs ⊢
      rw [run_cons]
      simp only [List.map_cons, specEdgeFlags]
      rw [step_some_critAlert, h, ihs, step_some_critLatch, h]

theorem run_plein_alerts (w : Bool) (cfg : Config) (samples : List (Snapshot × ℚ)) :
    ∀ s : EngineState, s.config = cfg →
    ((run w s (presentSamples samples)).2.map fun o => o.fullAlert)
      = specEdgeFlags s.deja_alerte_plein (samples.map fun p => pleinCond cfg p.1) := by
  induction samples with
  | nil => intro s _; simp [presentSamples, specEdgeFlags]
  | cons p ps ih =>
      intro s h
      have hcfg : (step w s (some p.1) p.2).1.config = cfg := by rw [step_some_config, h]
      have ihs := ih (step w s (some p.1) p.2).1 hcfg
      simp only [presentSamples, List.map_cons] at ihs ⊢
      rw [run_cons]
      simp only [List.map_cons, specEdgeFlags]
      rw [step_some_fullAlert, h, ihs, step_some_pleinLatch, h]

/-- C1: critical alerts are edge-triggered.  Over any run of battery-present
samples from a fresh engine, the critical-alert flags are exactly the
false-to-true edges of the condition (percent <= criticalPercent and not
charging), with the latch reset by any observed false evaluation; with
criticalPercent 15, the percents 20, 16, 14, 12, 16 (never charging) fire
exactly one alert, on the 14 sample. -/
theorem c1_critical_alert_edge (w : Bool) (cfg : Config) (samples : List (Snapshot × ℚ)) :
    (((run w (initState cfg) (presentSamples samples)).2.map fun o => o.criticalAlert)
      = specEdgeFlags false (samples.map fun p => critCond cfg p.1))
    ∧ (((run true (initState defaultConfig)
        (presentSamples [(⟨20, false, none⟩, 0), (⟨16, false, none⟩, 1), (⟨14, false, none⟩, 2),
          (⟨12, false, none⟩, 3), (⟨16, false, none⟩, 4)])).2.map fun o => o.criticalAlert)
      = [false, false, true, false, false]) := by
  exact ⟨run_crit_alerts w cfg samples (initState cfg) rfl, by decide⟩

/-- C2: full-charge alerts are edge-triggered on (charging and percent >=
fullPercent), firing only on the false-to-true transition with the latch
reset by any false evaluation; with fullPercent 95, the percents 90, 96,
97, 96 (all charging) fire exactly one alert, on the first 96 sample. -/
theorem c2_full_alert_edge (w : Bool) (cfg : Config) (samples : List (Snapshot × ℚ)) :
    (((run w (initState cfg) (presentSamples samples)).2.map fun o => o.fullAlert)
      = specEdgeFlags false (samples.map fun p => pleinCond cfg p.1))
    ∧ (((run true (initState defaultConfig)
        (presentSamples [(⟨90, true, none⟩, 0), (⟨96, true, none⟩, 1),
          (⟨97, true, none⟩, 2), (⟨96, true, none⟩, 3)])).2.map fun o => o.fullAlert)
      = [false, true, false, false]) := by
  exact ⟨run_plein_alerts w cfg samples (initState cfg) rfl, by decide⟩

/-! ### Ring-buffer history (claim C3) -/

theorem takeLast_length (n : Nat) (xs : List Int) :
    (takeLast n xs).length = min n xs.length := by
  simp only [takeLast, List.length_drop]
  omega

theorem takeLast_nil (n : Nat) : takeLast n [] = [] := by
  simp [takeLast]

theorem dequeAppend_eq_takeLast (m : Nat) (xs : List Int) (x : Int) (h : xs.length ≤ m) :
    dequeAppend m xs x = takeLast m (xs ++ [x]) := by
  unfold dequeAppend takeLast
  by_cases hm : m = 0
  · subst hm
    have hx : xs = [] := List.eq_nil_of_length_eq_zero (by omega)
    subst hx
    simp
  · by_cases hlt : xs.length < m
    · simp only [if_neg hm, if_pos hlt]
      have h0 : (xs ++ [x]).length - m = 0 := by
        simp only [List.length_append, List.length_singleton]
        omega
      rw [h0, List.drop_zero]
    · simp only [if_neg hm, if_neg hlt]
      have h1 : (xs ++ [x]).length - m = 1 := by
        simp only [List.length_append, List.length_singleton]
        omega
      rw [h1, List.drop_append_of_le_length (by omega)]

theorem takeLast_absorb (m : Nat) (ys zs : List Int) :
    takeLast m (takeLast m ys ++ zs) = takeLast m (ys ++ zs) := by
  unfold takeLast
  rw [List.drop_append_eq_append_drop, List.drop_append_eq_append_drop, List.drop_drop]
  congr 1
  · congr 1
    simp only [List.length_append, List.length_drop]
    omega
  · congr 1
    simp only [List.length_append, List.length_drop]
    omega

theorem run_history (w : Bool) (cfg : Config) (samples : List (Snapshot × ℚ)) :
    ∀ (s : EngineState) (acc : List Int), s.config = cfg →
      s.history = takeLast cfg.history_size acc →
      (run w s (presentSamples samples)).1.history
        = takeLast cfg.history_size (acc ++ samples.map fun p => p.1.percent) := by
  induction samples with
  | nil => intro s acc _ hh; simpa [presentSamples] using hh
  | cons p ps ih =>
      intro s acc h hh
      have hlen : s.history.length ≤ cfg.history_size := by
        rw [hh, takeLast_length]; omega
      have hstep : (step w s (some p.1) p.2).1.history
          = takeLast cfg.history_size (acc ++ [p.1.percent]) := by
        rw [step_some_history, h, hh,
          dequeAppend_eq_takeLast _ _ _ (by rw [takeLast_length]; omega),
          takeLast_absorb]
      have ihs := ih (step w s (some p.1) p.2).1 (acc ++ [p.1.percent])
        (by rw [step_some_config, h]) hstep
      simp only [presentSamples, List.map_cons] at ihs ⊢
      rw [run_cons]
      rw [ihs]
      congr 1
      simp [List.append_assoc]

theorem dequeAppend_length_le (m : Nat) (xs : List Int) (x : Int) (h : xs.length ≤ m) :
    (dequeAppend m xs x).length ≤ m := by
  unfold dequeAppend
  by_cases hm : m = 0
  · simp [hm]
  · by_cases hlt : xs.length < m
    · simp only [if_neg hm, if_pos hlt, List.length_append, List.length_singleton]
      omega
    · simp only [if_neg hm, if_neg hlt, List.length_append, List.length_singleton,
        List.length_drop]
      omega

theorem run_history_length (w : Bool) (cfg : Config) (mixed : List (Option Snapshot × ℚ)) :
    ∀ s : EngineState, s.config = cfg → s.history.length ≤ cfg.history_size →
      (run w s mixed).1.history.length ≤ cfg.history_size := by
  induction mixed with
  | nil => intro s _ hl; simpa using hl
  | cons p ps ih =>
      intro s h hl
      rw [run_cons]
      apply ih
      · cases p.1 with
        | none => simpa using h
        | some b => simpa using h
      · cases p.1 with
        | none => simp
        | some b =>
            rw [step_some_history, h]
            exact dequeAppend_length_le _ _ _ hl

/-- C3: ring-buffer discipline of the history deque.  For any sequence of
battery-present readings from a fresh engine, the history equals exactly
the most recent capacity percent values in arrival order (the oldest being
evicted first once full), and over any sequence of ticks whatsoever the
history length never exceeds the configured capacity. -/
theorem c3_history_ring_buffer (w : Bool) (cfg : Config) (samples : List (Snapshot × ℚ)) :
    ((run w (initState cfg) (presentSamples samples)).1.history
        = takeLast cfg.history_size (samples.map fun p => p.1.percent))
    ∧ ∀ mixed : List (Option Snapshot × ℚ),
        (run w (initState cfg) mixed).1.history.length ≤ cfg.history_size := by
  constructor
  · have hrun := run_history w cfg samples (initState cfg) [] rfl
      (by rw [takeLast_nil]; rfl)
    simpa using hrun
  · intro mixed
    exact run_history_length w cfg mixed (initState cfg) rfl (by simp [initState])

/-! ### No-battery branch (claim C4) -/

/-- C4 counterexample: the code contradicts the claim at a concrete input.
After a battery reading of 50 percent at time 100, a no-battery tick at
time 1000 and a battery reading of 45 percent at time 1900, the resumed
reading computes the rate -10 from the pre-gap trackers instead of the
claimed 0; and a critical latch set before a no-battery tick is still set
afterwards instead of being treated as false. -/
theorem c4_cex :
    (((run true (initState defaultConfig)
        [(some ⟨50, false, none⟩, 100), (none, 1000), (some ⟨45, false, none⟩, 1900)]).2.map
          fun o => o.ratePerHour)
      = [0, 0, -10])
    ∧ ((-10 : ℚ) ≠ 0)
    ∧ ((run true (initState defaultConfig)
        [(some ⟨10, false, none⟩, 100), (none, 1000)]).1.deja_alerte_critique = true) := by
  refine ⟨?_, by norm_num, by decide⟩
  simp [run, step, compute_rate, initState, dequeAppend, defaultConfig]
  norm_num

/-- C4 (amended): on a no-battery sample the engine clears the history,
emits only a NoBattery event, does not raise, and leaves the alert latches
and the lastPercent/lastTimestamp trackers unchanged; hence the first real
reading after a gap computes its rate from the last pre-gap reading over
the full elapsed time, and is 0 only when no reading preceded the gap. -/
theorem c4_amended_no_battery (w : Bool) (s : EngineState) (now : ℚ) :
    (step w s none now).1.history = []
    ∧ (step w s none now).1.deja_alerte_critique = s.deja_alerte_critique
    ∧ (step w s none now).1.deja_alerte_plein = s.deja_alerte_plein
    ∧ (step w s none now).1.last_percent = s.last_percent
    ∧ (step w s none now).1.last_update = s.last_update
    ∧ (step w s none now).2.noBattery = true
    ∧ (step w s none now).2.criticalAlert = false
    ∧ (step w s none now).2.fullAlert = false :=
  ⟨rfl, rfl, rfl, rfl, rfl, rfl, rfl, rfl⟩

/-! ### Rate computation (claim C5) -/

/-- C5 counterexample: feeding percent 50 at time 0 and percent 45 at time
1800 yields the rate 0 on the second sample, not the claimed -10: the
source guard tests the stored timestamp for Python truthiness, so a
previous timestamp of exactly 0 counts as no prior data. -/
theorem c5_cex :
    (((run true (initState defaultConfig)
        [(some ⟨50, false, none⟩, 0), (some ⟨45, false, none⟩, 1800)]).2.map
          fun o => o.ratePerHour) = [0, 0])
    ∧ ((0 : ℚ) ≠ -10) := by
  constructor
  · simp [run, step, compute_rate, initState, dequeAppend, defaultConfig]
  · norm_num

/-- C5 (amended): on a battery sample, when a previous reading exists and
the previous timestamp is nonzero (a timestamp of exactly 0 is treated as
no prior data by the truthiness guard), the rate is (percent - lastPercent)
divided by the elapsed time in hours, and 0 when the elapsed time is not
positive; with no prior reading or no prior timestamp the rate is 0.  The
spec example holds at any nonzero start time, such as 50 at time 10 and 45
at time 1810, which yields -10. -/
theorem c5_rate_amended (w : Bool) (s : EngineState) (b : Snapshot) (now : ℚ) :
    (∀ (lp : Int) (lt : ℚ), s.last_percent = some lp → s.last_update = some lt → lt ≠ 0 →
        ((0 < (now - lt) / 3600 →
            (step w s (some b) now).2.ratePerHour
              = ((b.percent : ℚ) - (lp : ℚ)) / ((now - lt) / 3600))
          ∧ (¬ 0 < (now - lt) / 3600 → (step w s (some b) now).2.ratePerHour = 0)))
    ∧ (s.last_percent = none → (step w s (some b) now).2.ratePerHour = 0)
    ∧ (s.last_update = none → (step w s (some b) now).2.ratePerHour = 0) := by
  refine ⟨?_, ?_, ?_⟩
  · intro lp lt hp ht hz
    constructor
    · intro hpos
      rw [step_some_rate, hp, ht]
      simp [compute_rate, hz, hpos]
    · intro hneg
      rw [step_some_rate, hp, ht]
      simp [compute_rate, hz, hneg]
  · intro hp
    cases hu : s.last_update with
    | none => rw [step_some_rate, hp, hu]; rfl
    | some lu => rw [step_some_rate, hp, hu]; rfl
  · intro hu
    cases hp : s.last_percent with
    | none => rw [step_some_rate, hp, hu]; rfl
    | some lp => rw [step_some_rate, hp, hu]; rfl

/-- C5 witness: the amended rate formula evaluated at a concrete state,
a previous reading of 50 percent at time 10 and a current reading of 45
percent at time 1810, gives -10 percent per hour. -/
theorem c5_rate_amended_witness :
    (step true
        { config := defaultConfig, deja_alerte_critique := false, deja_alerte_plein := false,
          history := [50], last_percent := some 50, last_update := some 10 }
        (some ⟨45, false, none⟩) 1810).2.ratePerHour = -10 := by
  have h := (c5_rate_amended true
      { config := defaultConfig, deja_alerte_critique := false, deja_alerte_plein := false,
        history := [50], last_percent := some 50, last_update := some 10 }
      ⟨45, false, none⟩ 1810).1 50 10 rfl rfl (by norm_num)
  rw [h.1 (by norm_num)]
  norm_num

/-! ### Settings update (claims C6 and C8) -/

/-- C6: save_and_close replaces the thresholds without altering the latch
state, history, or last-reading trackers, and the next sample evaluates
both alert conditions with the newly stored (clamped) thresholds against
the untouched latches. -/
theorem c6_update_config_frame (i : SettingsInput) (s : EngineState) :
    (save_and_close i s).deja_alerte_critique = s.deja_alerte_critique
    ∧ (save_and_close i s).deja_alerte_plein = s.deja_alerte_plein
    ∧ (save_and_close i s).history = s.history
    ∧ (save_and_close i s).last_percent = s.last_percent
    ∧ (save_and_close i s).last_update = s.last_update
    ∧ (save_and_close i s).config.seuil_critique = max 1 (min 99 i.crit)
    ∧ (save_and_close i s).config.seuil_plein = max 50 (min 100 i.plein)
    ∧ ∀ (w : Bool) (b : Snapshot) (now : ℚ),
        ((step w (save_and_close i s) (some b) now).2.criticalAlert
          = ((decide (b.percent ≤ max 1 (min 99 i.crit)) && !b.power_plugged)
              && !s.deja_alerte_critique))
        ∧ ((step w (save_and_close i s) (some b) now).2.fullAlert
          = ((b.power_plugged && decide (max 50 (min 100 i.plein) ≤ b.percent))
              && !s.deja_alerte_plein)) := by
  refine ⟨rfl, rfl, rfl, rfl, rfl, rfl, rfl, ?_⟩
  intro w b now
  exact ⟨rfl, rfl⟩

/-- C8 counterexample: save_and_close does not enforce the claimed
relation between the hibernate threshold and the critical threshold.
Saving crit 5 together with hibernate 20 stores hibernate_threshold 20
above seuil_critique 5. -/
theorem c8_cex :
    ((save_and_close
        { crit := 5, plein := 95, interval := 5000, auto_hibernate := true, hibernate := 20,
          power_saver_auto := false, power_saver_thresh := 20, enable_notifs := true,
          sound := true, start_minimized := false, custom_command := "", autorun := false }
        (initState defaultConfig)).config.hibernate_threshold = 20)
    ∧ ((save_and_close
        { crit := 5, plein := 95, interval := 5000, auto_hibernate := true, hibernate := 20,
          power_saver_auto := false, power_saver_thresh := 20, enable_notifs := true,
          sound := true, start_minimized := false, custom_command := "", autorun := false }
        (initState defaultConfig)).config.seuil_critique = 5)
    ∧ ¬ ((20 : Int) ≤ 5) := by
  exact ⟨by decide, by decide, by decide⟩

/-- C8 (amended): after any save, the stored configuration satisfies
criticalPercent in 1..99, fullPercent in 50..100, poll interval at least
1000 ms, and hibernateThreshold in 1..20; the relation hibernateThreshold
at most criticalPercent is not enforced. -/
theorem c8_amended_config_ranges (i : SettingsInput) (s : EngineState) :
    1 ≤ (save_and_close i s).config.seuil_critique
    ∧ (save_and_close i s).config.seuil_critique ≤ 99
    ∧ 50 ≤ (save_and_close i s).config.seuil_plein
    ∧ (save_and_close i s).config.seuil_plein ≤ 100
    ∧ 1000 ≤ (save_and_close i s).config.interval_ms
    ∧ 1 ≤ (save_and_close i s).config.hibernate_threshold
    ∧ (save_and_close i s).config.hibernate_threshold ≤ 20 := by
  dsimp only [save_and_close]
  refine ⟨?_, ?_, ?_, ?_, ?_, ?_, ?_⟩ <;> omega

/-! ### Totality and absence of clamping (claim C7) -/

theorem dequeAppend_getLast (m : Nat) (xs : List Int) (x : Int) (hm : m ≠ 0) :
    (dequeAppend m xs x).getLast? = some x := by
  unfold dequeAppend
  by_cases hlt : xs.length < m <;> simp [hm, hlt]

/-- C7 counterexample: the engine does not clamp out-of-range percents.
A reading of 150 percent while charging lands in the history as 150,
outside 0..100, and the full-charge condition is evaluated on the raw
value and fires. -/
theorem c7_cex :
    ((step true (initState defaultConfig) (some ⟨150, true, none⟩) 5).1.history = [150])
    ∧ ¬ ((150 : Int) ≤ 100)
    ∧ ((step true (initState defaultConfig) (some ⟨150, true, none⟩) 5).2.fullAlert = true) := by
  exact ⟨by decide, by decide, by decide⟩

/-- C7 (amended): a tick is total (the whole body of update_interface
runs inside a catch-all handler, modelled by step being a total function)
but the engine performs no clamping: whenever the history capacity is
nonzero, the raw rounded percent of the reading, whatever its range, is
the value appended to the history and used by the threshold conditions. -/
theorem c7_amended_no_clamp (w : Bool) (s : EngineState) (b : Snapshot) (now : ℚ)
    (h : s.config.history_size ≠ 0) :
    (step w s (some b) now).1.history.getLast? = some b.percent := by
  rw [step_some_history]
  exact dequeAppend_getLast _ _ _ h

/-- C7 witness: the amended statement at a concrete out-of-range input,
a reading of 150 percent fed to a fresh engine with the default capacity
60: the raw value 150 is the newest history entry. -/
theorem c7_amended_no_clamp_witness :
    defaultConfig.history_size ≠ 0
    ∧ (step true (initState defaultConfig) (some ⟨150, true, none⟩) 5).1.history.getLast?
        = some 150 :=
  ⟨by decide, c7_amended_no_clamp true (initState defaultConfig) ⟨150, true, none⟩ 5 (by decide)⟩
